import Mathlib

/-!
Verification of the concurrent pager core of the `minus` crate
(`src/utils.rs`, `src/core/init.rs`, `src/input/tests.rs`).

The Rust code is shallowly embedded: `usize` is `Nat` clamped to
`USIZE_MAX = 2 ^ 64 - 1` where saturation matters, checked arithmetic
(which panics on overflow in debug builds) is made explicit with
`Option`, terminal I/O is modelled by returning the list of lines that
would be written, and the two loops (`event_reader`, `start_reactor`)
become step functions over explicit iteration inputs.
-/

namespace Minus

/-- Extreme value of the `usize` type on a 64-bit target. -/
def USIZE_MAX : Nat := 2 ^ 64 - 1

/-- Rust `usize::saturating_add` (`Nat` clamped at `USIZE_MAX`). -/
def usatAdd (a b : Nat) : Nat := min (a + b) USIZE_MAX

/-- Rust `usize::saturating_sub`; truncated `Nat` subtraction already
saturates at zero. -/
def usatSub (a b : Nat) : Nat := a - b

/-- Embeds `LineNumbers` from `src/utils.rs`. -/
inductive LineNumbers
  /-- Enable line numbers permanently, cannot be turned off by user. -/
  | Enabled
  /-- Line numbers on, user may turn them off. -/
  | Yes
  /-- Line numbers off, user may turn them on. -/
  | No
  /-- Disable line numbers permanently, cannot be turned on by user. -/
  | Disabled
deriving DecidableEq

/-- Embeds `impl std::ops::Not for LineNumbers` (`src/utils.rs`):
`Yes` and `No` are exchanged, anything else is returned unchanged. -/
def lnNot (m : LineNumbers) : LineNumbers :=
  if m = LineNumbers.Yes then LineNumbers.No
  else if m = LineNumbers.No then LineNumbers.Yes
  else m

/-- Search direction, as used by the `n`/`p` bindings. -/
inductive SearchMode
  | Forward
  | Reverse
deriving DecidableEq

/-- Embeds `InputEvent` (declared in `src/input`, used by
`src/input/tests.rs` and `src/core/init.rs`). -/
inductive InputEvent
  | UpdateUpperMark (n : Nat)
  | UpdateTermArea (cols rows : Nat)
  | UpdateLineNumber (m : LineNumbers)
  | Exit
  | Search (d : SearchMode)
  | MoveToNextMatch (k : Nat)
  | MoveToPrevMatch (k : Nat)
  | RestorePrompt
  | Number (c : Char)
deriving DecidableEq

/-- True exactly on `InputEvent.Number`; mirrors the
`if let InputEvent::Number(n) = iev` test in `event_reader`
(`src/core/init.rs`). -/
def isNumberEvent : InputEvent → Bool
  | InputEvent.Number _ => true
  | _ => false

/-- The fields of `PagerState` that the verified components touch.
`formatted_lines` is the authoritative sequence of display-ready lines,
`upper_mark` the index of the first visible line, `prefix_num` the
accumulator of typed digits. -/
structure PagerState where
  formatted_lines : List String
  upper_mark : Nat
  rows : Nat
  cols : Nat
  line_numbers : LineNumbers
  prompt : String
  message : Option String
  run_no_overflow : Bool
  prefix_num : List Char
  search_mode : SearchMode
  exit : Bool
deriving DecidableEq

/-- Modelled from the spec: `PagerState::num_lines` is not under `src/`
(only its callers in `src/core/init.rs` are); per the data model and the
append example it is the number of entries of `formatted_lines`. -/
def num_lines (st : PagerState) : Nat := st.formatted_lines.length

/-- Key modifier actually pressed (the tests only ever use one of
`NONE`, `SHIFT`, `CONTROL`). -/
inductive KeyMods
  | plain
  | shift
  | ctrl
deriving DecidableEq

/-- Key codes that the classifier distinguishes. -/
inductive KeyCode
  | Down
  | Up
  | PageUp
  | PageDown
  | Enter
  | Char (c : Char)
deriving DecidableEq

/-- A raw terminal event, as delivered by the event source. -/
inductive TermEvent
  | Key (code : KeyCode) (m : KeyMods)
  | Resize (cols rows : Nat)
  | MouseScrollUp
  | MouseScrollDown
  | Other
deriving DecidableEq

/-- Modelled from the spec: the accumulated numeric repeat count;
defaults to 1 when no digits are pending (§4.4 of the spec). -/
def repeat_count (st : PagerState) : Nat :=
  if st.prefix_num = [] then 1
  else st.prefix_num.foldl (fun a c => a * 10 + (c.toNat - 48)) 0

/-- Modelled from the spec: `classify_input` (`src/input/mod.rs` is not
among the sources; only its tests in `src/input/tests.rs` are).  The
binding table follows §4.4 of the spec, except that the PageUp/PageDown
and Space scroll amount is `rows - 1`, the value the repository's own
tests pin (`test_kb_nav` expects 8 and 16 at `upper_mark = 12`,
`rows = 5`, contradicting the spec's `rows + 1`), and mouse scrolling
moves by 5 lines as `test_mouse_nav` requires.  All `upper_mark`
arithmetic is saturating. -/
def classify_input (ev : TermEvent) (st : PagerState) : Option InputEvent :=
  match ev with
  | TermEvent.Key KeyCode.Down KeyMods.plain =>
      some (InputEvent.UpdateUpperMark (usatAdd st.upper_mark 1))
  | TermEvent.Key KeyCode.Up KeyMods.plain =>
      some (InputEvent.UpdateUpperMark (usatSub st.upper_mark 1))
  | TermEvent.Key KeyCode.Enter KeyMods.plain =>
      if st.message.isSome then some InputEvent.RestorePrompt
      else some (InputEvent.UpdateUpperMark (usatAdd st.upper_mark 1))
  | TermEvent.Key KeyCode.PageUp KeyMods.plain =>
      some (InputEvent.UpdateUpperMark (usatSub st.upper_mark (st.rows - 1)))
  | TermEvent.Key KeyCode.PageDown KeyMods.plain =>
      some (InputEvent.UpdateUpperMark (usatAdd st.upper_mark (st.rows - 1)))
  | TermEvent.Key (KeyCode.Char ' ') KeyMods.plain =>
      some (InputEvent.UpdateUpperMark (usatAdd st.upper_mark (st.rows - 1)))
  | TermEvent.Key (KeyCode.Char 'd') KeyMods.ctrl =>
      some (InputEvent.UpdateUpperMark (usatAdd st.upper_mark (st.rows / 2)))
  | TermEvent.Key (KeyCode.Char 'u') KeyMods.ctrl =>
      some (InputEvent.UpdateUpperMark (usatSub st.upper_mark (st.rows / 2)))
  | TermEvent.Key (KeyCode.Char 'g') KeyMods.plain =>
      some (InputEvent.UpdateUpperMark 0)
  | TermEvent.Key (KeyCode.Char 'g') KeyMods.shift =>
      some (InputEvent.UpdateUpperMark (USIZE_MAX - 1))
  | TermEvent.Key (KeyCode.Char 'G') KeyMods.plain =>
      some (InputEvent.UpdateUpperMark (USIZE_MAX - 1))
  | TermEvent.Key (KeyCode.Char 'G') KeyMods.shift =>
      some (InputEvent.UpdateUpperMark (USIZE_MAX - 1))
  | TermEvent.Key (KeyCode.Char 'l') KeyMods.ctrl =>
      some (InputEvent.UpdateLineNumber (lnNot st.line_numbers))
  | TermEvent.Key (KeyCode.Char 'q') KeyMods.plain =>
      some InputEvent.Exit
  | TermEvent.Key (KeyCode.Char 'c') KeyMods.ctrl =>
      some InputEvent.Exit
  | TermEvent.Key (KeyCode.Char '/') KeyMods.plain =>
      some (InputEvent.Search SearchMode.Forward)
  | TermEvent.Key (KeyCode.Char '?') KeyMods.plain =>
      some (InputEvent.Search SearchMode.Reverse)
  | TermEvent.Key (KeyCode.Char 'n') KeyMods.plain =>
      if st.search_mode = SearchMode.Forward then
        some (InputEvent.MoveToNextMatch (repeat_count st))
      else some (InputEvent.MoveToPrevMatch (repeat_count st))
  | TermEvent.Key (KeyCode.Char 'p') KeyMods.plain =>
      if st.search_mode = SearchMode.Forward then
        some (InputEvent.MoveToPrevMatch (repeat_count st))
      else some (InputEvent.MoveToNextMatch (repeat_count st))
  | TermEvent.Key (KeyCode.Char c) KeyMods.plain =>
      if c.isDigit then some (InputEvent.Number c) else none
  | TermEvent.Resize c r =>
      some (InputEvent.UpdateTermArea c r)
  | TermEvent.MouseScrollUp =>
      some (InputEvent.UpdateUpperMark (usatSub st.upper_mark 5))
  | TermEvent.MouseScrollDown =>
      some (InputEvent.UpdateUpperMark (usatAdd st.upper_mark 5))
  | _ => none

/-- The pager state of `test_kb_nav` / `test_misc_events` in
`src/input/tests.rs`: `upper_mark = 12`, `rows = 5`,
`line_numbers = Enabled`. -/
def kb_state : PagerState :=
  { formatted_lines := []
    upper_mark := 12
    rows := 5
    cols := 80
    line_numbers := LineNumbers.Enabled
    prompt := "minus"
    message := none
    run_no_overflow := false
    prefix_num := []
    search_mode := SearchMode.Forward
    exit := false }

/-- The modelled classifier reproduces every assertion of `test_kb_nav`
(`src/input/tests.rs`), grounding the model in the repository's tests. -/
theorem classify_matches_test_kb_nav :
    classify_input (TermEvent.Key KeyCode.Down KeyMods.plain) kb_state
      = some (InputEvent.UpdateUpperMark 13) ∧
    classify_input (TermEvent.Key KeyCode.Up KeyMods.plain) kb_state
      = some (InputEvent.UpdateUpperMark 11) ∧
    classify_input (TermEvent.Key (KeyCode.Char 'g') KeyMods.plain) kb_state
      = some (InputEvent.UpdateUpperMark 0) ∧
    classify_input (TermEvent.Key KeyCode.PageUp KeyMods.plain) kb_state
      = some (InputEvent.UpdateUpperMark 8) ∧
    classify_input (TermEvent.Key (KeyCode.Char 'g') KeyMods.shift) kb_state
      = some (InputEvent.UpdateUpperMark (USIZE_MAX - 1)) ∧
    classify_input (TermEvent.Key (KeyCode.Char 'G') KeyMods.plain) kb_state
      = some (InputEvent.UpdateUpperMark (USIZE_MAX - 1)) ∧
    classify_input (TermEvent.Key (KeyCode.Char 'G') KeyMods.shift) kb_state
      = some (InputEvent.UpdateUpperMark (USIZE_MAX - 1)) ∧
    classify_input (TermEvent.Key KeyCode.PageDown KeyMods.plain) kb_state
      = some (InputEvent.UpdateUpperMark 16) ∧
    classify_input (TermEvent.Key (KeyCode.Char 'd') KeyMods.ctrl) kb_state
      = some (InputEvent.UpdateUpperMark 14) ∧
    classify_input (TermEvent.Key (KeyCode.Char 'u') KeyMods.ctrl) kb_state
      = some (InputEvent.UpdateUpperMark 10) ∧
    classify_input (TermEvent.Key (KeyCode.Char ' ') KeyMods.plain) kb_state
      = some (InputEvent.UpdateUpperMark 16) ∧
    classify_input (TermEvent.Key KeyCode.Enter KeyMods.plain) kb_state
      = some (InputEvent.UpdateUpperMark 13) := by
  decide

/-- The modelled classifier reproduces `test_misc_events`,
`test_restore_prompt` and `test_mouse_nav` (`src/input/tests.rs`). -/
theorem classify_matches_test_misc :
    classify_input (TermEvent.Resize 42 35) kb_state
      = some (InputEvent.UpdateTermArea 42 35) ∧
    classify_input (TermEvent.Key (KeyCode.Char 'l') KeyMods.ctrl) kb_state
      = some (InputEvent.UpdateLineNumber (lnNot LineNumbers.Enabled)) ∧
    classify_input (TermEvent.Key (KeyCode.Char 'q') KeyMods.plain) kb_state
      = some InputEvent.Exit ∧
    classify_input (TermEvent.Key (KeyCode.Char 'c') KeyMods.ctrl) kb_state
      = some InputEvent.Exit ∧
    classify_input (TermEvent.Key (KeyCode.Char 'a') KeyMods.plain) kb_state
      = none ∧
    classify_input (TermEvent.Key KeyCode.Enter KeyMods.plain)
        { kb_state with message := some "Prompt message" }
      = some InputEvent.RestorePrompt ∧
    classify_input TermEvent.MouseScrollDown kb_state
      = some (InputEvent.UpdateUpperMark 17) ∧
    classify_input TermEvent.MouseScrollUp kb_state
      = some (InputEvent.UpdateUpperMark 7) := by
  decide

/-- Splits a character sequence at every `\n`; `cur` accumulates the
current piece in reverse.  A trailing `\n` yields a final empty piece. -/
def splitOnNl (cs : List Char) (cur : List Char) : List (List Char) :=
  match cs with
  | [] => [cur.reverse]
  | c :: rest =>
      if c = '\n' then cur.reverse :: splitOnNl rest []
      else splitOnNl rest (c :: cur)

/-- Strips one trailing `\r`, as `str::lines()` does to each line. -/
def stripCr (cs : List Char) : List Char :=
  if cs.getLast? = some '\r' then cs.dropLast else cs

/-- Embeds Rust `str.ends_with('\n')`. -/
def endsWithNl (s : String) : Bool := s.data.getLast? = some '\n'

/-- Embeds Rust `str::lines()`: split on `\n`, drop the trailing empty
piece produced by a final newline, and strip a trailing `\r` from each
line; the empty string has no lines. -/
def rustLines (s : String) : List String :=
  if s.data = [] then []
  else
    let parts := splitOnNl s.data []
    let parts := if endsWithNl s then parts.dropLast else parts
    parts.map (fun cs => String.mk (stripCr cs))

/-- The arithmetic and clamping core of `write_lines`
(`src/utils.rs`), abstracted over the split lines `ls` and the
`ends_with('\n') as usize` value `ends_nl`, with checked `usize`
arithmetic: `none` models an arithmetic overflow (a panic in debug
builds) in `*upper_mark + rows - ends_nl` or in the take length
`lower_mark - *upper_mark`.  On success it returns the updated
`upper_mark` together with the list of lines written to the terminal
(the per-line number formatting of the `Yes`/`Enabled` arms does not
change which lines are written). -/
def write_lines_core (ls : List String) (ends_nl rows upper_mark : Nat) :
    Option (Nat × List String) :=
  let line_count := ls.length
  if upper_mark + rows > USIZE_MAX then none
  else if upper_mark + rows < ends_nl then none
  else
    let lower_mark := upper_mark + rows - ends_nl
    if lower_mark > line_count then
      let um := if line_count < rows then 0 else line_count - rows
      some (um, (ls.drop um).take (line_count - um))
    else if lower_mark < upper_mark then none
    else some (upper_mark, (ls.drop upper_mark).take (lower_mark - upper_mark))

/-- Embeds `write_lines` from `src/utils.rs`. -/
def write_lines (lines : String) (rows upper_mark : Nat) :
    Option (Nat × List String) :=
  write_lines_core (rustLines lines) (if endsWithNl lines then 1 else 0)
    rows upper_mark

/-- Embeds the `Event::AppendData` arm of the dynamic reactor loop
(`src/core/init.rs`, `start_reactor`): `fmt_text` stands for the result
of `make_append_str`.  Returns the updated state (all formatted lines
appended to `formatted_lines`) and the lines written to the terminal by
the incremental fast path (`fmt_text[0..num_appendable]`, written only
when `num_lines < rows`). -/
def handle_append_data (st : PagerState) (fmt_text : List String) :
    PagerState × List String :=
  let written :=
    if num_lines st < st.rows then
      let available_rows := usatSub st.rows (usatAdd (num_lines st) 1)
      let num_appendable := min fmt_text.length available_rows
      fmt_text.take num_appendable
    else []
  ({ st with formatted_lines := st.formatted_lines ++ fmt_text }, written)

/-- A whole sequence of `AppendData` events folded through the reactor's
append arm, keeping only the state. -/
def apply_appends (st : PagerState) (batches : List (List String)) :
    PagerState :=
  batches.foldl (fun s b => (handle_append_data s b).1) st

/-- One classify-and-forward step of `event_reader`
(`src/core/init.rs`): a digit is pushed onto `prefix_num` and not
forwarded; any other classified event clears `prefix_num` and is
forwarded; an unclassified event clears `prefix_num` and forwards
nothing. -/
def event_reader_step (st : PagerState) (raw : TermEvent) :
    PagerState × Option InputEvent :=
  match classify_input raw st with
  | some (InputEvent.Number n) =>
      ({ st with prefix_num := st.prefix_num ++ [n] }, none)
  | some iev => ({ st with prefix_num := [] }, some iev)
  | none => ({ st with prefix_num := [] }, none)

/-- The session-level error of the reader loop; both `event::poll` and
`event::read` failures are wrapped as `MinusError::HandleEvent`. -/
inductive MinusError
  | HandleEvent
deriving DecidableEq

/-- One iteration's worth of external input to the `event_reader` loop:
the poll fails, polls without data, the read fails, or an event arrives
(`disc` tells whether `try_send` would report the channel
disconnected). -/
inductive ReaderIter
  | pollErr
  | notReady
  | readErr
  | ev (raw : TermEvent) (disc : Bool)
deriving DecidableEq

/-- Embeds the `event_reader` loop of `src/core/init.rs` as a function
of the sequence of iteration inputs: poll/read failures return
`Except.error`, a disconnected channel on `try_send` breaks the loop
and returns `Except.ok ()`, everything else recurses. -/
def event_reader_loop (st : PagerState) :
    List ReaderIter → PagerState × Except MinusError Unit
  | [] => (st, Except.ok ())
  | ReaderIter.pollErr :: _ => (st, Except.error MinusError.HandleEvent)
  | ReaderIter.notReady :: rest => event_reader_loop st rest
  | ReaderIter.readErr :: _ => (st, Except.error MinusError.HandleEvent)
  | ReaderIter.ev raw disc :: rest =>
      let step := event_reader_step st raw
      match step.2 with
      | some _ =>
          if disc then (step.1, Except.ok ())
          else event_reader_loop step.1 rest
      | none => event_reader_loop step.1 rest

/-- What the static-mode entry checks of `init_core`
(`src/core/init.rs`, lines 94-141) do: how many full content dumps
(`write_lines(&mut out, &mut ps)`) happen, whether `term::setup` runs,
whether the `event_reader` thread is spawned, whether `start_reactor`
runs, and whether the function returns `Ok`. -/
structure InitCoreTrace where
  full_writes : Nat
  terminal_setup : Bool
  reader_spawned : Bool
  reactor_started : Bool
  returned_ok : Bool
deriving DecidableEq

/-- Embeds the static-mode short-circuit logic of `init_core`
(`src/core/init.rs`): `ps` is the state produced by
`generate_initial_state`, `is_tty` whether stdout is an interactive
terminal.  The interactive branch performs no full content dump itself
(the reactor's initial paint is a `draw`, not `write_lines`). -/
def init_core_static (is_tty : Bool) (ps : PagerState) : InitCoreTrace :=
  if !is_tty then
    { full_writes := 1
      terminal_setup := false
      reader_spawned := false
      reactor_started := false
      returned_ok := true }
  else if num_lines ps ≤ ps.rows ∧ ps.run_no_overflow then
    { full_writes := 1
      terminal_setup := false
      reader_spawned := false
      reactor_started := false
      returned_ok := true }
  else
    { full_writes := 0
      terminal_setup := true
      reader_spawned := true
      reactor_started := true
      returned_ok := true }

/-- A pager state with three lines already displayed and five terminal
rows, as in the spec's append example. -/
def append3_state : PagerState :=
  { kb_state with
      formatted_lines := ["one", "two", "three"]
      upper_mark := 0 }

/-- C1: for every `AppendData` event the dynamic reactor appends all
newly formatted lines to `formatted_lines` whatever the fast path
wrote, so over any sequence of appends the final length of
`formatted_lines` is the initial length plus the sum of the per-append
formatted-line counts. -/
theorem appendData_never_loses_lines :
    (∀ (st : PagerState) (fmt_text : List String),
      ((handle_append_data st fmt_text).1).formatted_lines
        = st.formatted_lines ++ fmt_text) ∧
    ∀ (st : PagerState) (batches : List (List String)),
      (apply_appends st batches).formatted_lines.length
        = st.formatted_lines.length + (batches.map List.length).sum := by
  constructor
  · intro st fmt_text
    rfl
  · intro st batches
    induction batches generalizing st with
    | nil => simp [apply_appends]
    | cons b bs ih =>
        have hstep :
            ((handle_append_data st b).1).formatted_lines
              = st.formatted_lines ++ b := rfl
        simp only [apply_appends, List.foldl_cons, List.map_cons, List.sum_cons]
        rw [show (List.foldl (fun s l => (handle_append_data s l).1)
              (handle_append_data st b).1 bs)
            = apply_appends (handle_append_data st b).1 bs from rfl]
        rw [ih, hstep]
        simp [List.length_append]
        omega

/-- C2: on `AppendData`, when fewer than `rows` lines are displayed the
fast path writes exactly `min formatted_len (rows - (displayed + 1))`
lines, and writes nothing once the screen is full; with `rows = 5`,
three lines displayed and four new lines, exactly one line is
written. -/
theorem append_fast_path_write_count
    (st : PagerState) (fmt_text : List String)
    (hrows : st.rows ≤ USIZE_MAX) :
    ((handle_append_data st fmt_text).2.length =
      if num_lines st < st.rows then
        min fmt_text.length (st.rows - (num_lines st + 1))
      else 0) ∧
    (handle_append_data append3_state
        ["new1", "new2", "new3", "new4"]).2.length = 1 := by
  refine ⟨?_, by decide⟩
  by_cases h : num_lines st < st.rows
  · have hadd : usatAdd (num_lines st) 1 = num_lines st + 1 := by
      unfold usatAdd
      omega
    simp only [handle_append_data, h, if_true, usatSub, hadd,
      List.length_take]
    omega
  · simp [handle_append_data, h]

/-- Closed witness for `append_fast_path_write_count` at `rows = 5`,
three displayed lines and four appended lines. -/
theorem append_fast_path_write_count_witness :
    append3_state.rows ≤ USIZE_MAX ∧
    (((handle_append_data append3_state
          ["new1", "new2", "new3", "new4"]).2.length =
        if num_lines append3_state < append3_state.rows then
          min (["new1", "new2", "new3", "new4"] : List String).length
            (append3_state.rows - (num_lines append3_state + 1))
        else 0) ∧
      (handle_append_data append3_state
          ["new1", "new2", "new3", "new4"]).2.length = 1) :=
  ⟨by decide,
    append_fast_path_write_count append3_state
      ["new1", "new2", "new3", "new4"] (by decide)⟩

/-- C5: the `Not` implementation on `LineNumbers` fixes `Enabled` and
`Disabled` (once and hence twice) and exchanges `Yes` and `No`, on
which it is an involution. -/
theorem line_number_toggle_laws :
    lnNot LineNumbers.Enabled = LineNumbers.Enabled ∧
    lnNot LineNumbers.Disabled = LineNumbers.Disabled ∧
    lnNot (lnNot LineNumbers.Enabled) = LineNumbers.Enabled ∧
    lnNot (lnNot LineNumbers.Disabled) = LineNumbers.Disabled ∧
    lnNot LineNumbers.Yes = LineNumbers.No ∧
    lnNot LineNumbers.No = LineNumbers.Yes ∧
    lnNot (lnNot LineNumbers.Yes) = LineNumbers.Yes ∧
    lnNot (lnNot LineNumbers.No) = LineNumbers.No := by
  decide

/-- C7: in static mode, a non-interactive stdout, or content fitting
within `rows` with `run_no_overflow` set, makes `init_core` dump the
content exactly once and return `Ok` without terminal setup and without
starting the reader or reactor loops. -/
theorem static_mode_short_circuit (is_tty : Bool) (ps : PagerState)
    (h : is_tty = false ∨
      (num_lines ps ≤ ps.rows ∧ ps.run_no_overflow = true)) :
    init_core_static is_tty ps =
      { full_writes := 1
        terminal_setup := false
        reader_spawned := false
        reactor_started := false
        returned_ok := true } := by
  rcases h with h | h
  · subst h
    rfl
  · unfold init_core_static
    cases is_tty
    · rfl
    · simp [h.1, h.2]

/-- Closed witness for `static_mode_short_circuit`: a non-tty output
short-circuits. -/
theorem static_mode_short_circuit_witness :
    (false = false ∨
      (num_lines kb_state ≤ kb_state.rows ∧
        kb_state.run_no_overflow = true)) ∧
    init_core_static false kb_state =
      { full_writes := 1
        terminal_setup := false
        reader_spawned := false
        reactor_started := false
        returned_ok := true } :=
  ⟨Or.inl rfl, static_mode_short_circuit false kb_state (Or.inl rfl)⟩

/-- C4 counterexample: at `upper_mark = 12`, `rows = 5` the classifier
maps PageDown to `UpdateUpperMark 16` — the value fixed by the
repository's own `test_kb_nav` — not to `UpdateUpperMark 18` as the
claim's `upper_mark + (rows + 1)` requires. -/
theorem page_keys_claim_cex :
    classify_input (TermEvent.Key KeyCode.PageDown KeyMods.plain) kb_state
      = some (InputEvent.UpdateUpperMark 16) ∧
    classify_input (TermEvent.Key KeyCode.PageDown KeyMods.plain) kb_state
      ≠ some (InputEvent.UpdateUpperMark 18) := by
  decide

/-- C4 amended: for every pager state the classifier maps PageUp to
`UpdateUpperMark (upper_mark - (rows - 1))` saturating at 0, and
PageDown and Space to `UpdateUpperMark (upper_mark + (rows - 1))`
saturating at `usize::MAX`; with `upper_mark = 12`, `rows = 5`,
PageDown yields `UpdateUpperMark 16`. -/
theorem page_keys_amended (st : PagerState) :
    classify_input (TermEvent.Key KeyCode.PageUp KeyMods.plain) st
      = some (InputEvent.UpdateUpperMark
          (usatSub st.upper_mark (st.rows - 1))) ∧
    classify_input (TermEvent.Key KeyCode.PageDown KeyMods.plain) st
      = some (InputEvent.UpdateUpperMark
          (usatAdd st.upper_mark (st.rows - 1))) ∧
    classify_input (TermEvent.Key (KeyCode.Char ' ') KeyMods.plain) st
      = some (InputEvent.UpdateUpperMark
          (usatAdd st.upper_mark (st.rows - 1))) ∧
    classify_input (TermEvent.Key KeyCode.PageDown KeyMods.plain) kb_state
      = some (InputEvent.UpdateUpperMark 16) :=
  ⟨rfl, rfl, rfl, by decide⟩

/-- Applies one Down (`true`) or Up (`false`) key press through the
classifier and realizes the resulting `UpdateUpperMark`. -/
def nav_step (st : PagerState) (down : Bool) : PagerState :=
  match classify_input
      (TermEvent.Key (if down then KeyCode.Down else KeyCode.Up)
        KeyMods.plain) st with
  | some (InputEvent.UpdateUpperMark m) => { st with upper_mark := m }
  | _ => st

/-- The upper mark produced by one Down/Up press. -/
theorem nav_step_upper_mark (st : PagerState) (d : Bool) :
    (nav_step st d).upper_mark =
      if d then usatAdd st.upper_mark 1 else usatSub st.upper_mark 1 := by
  cases d <;> rfl

/-- C6: classifier arithmetic on `upper_mark` is saturating — any
sequence of Down/Up presses keeps `upper_mark` within
`[0, usize::MAX]`, Down at `usize::MAX` yields
`UpdateUpperMark usize::MAX`, and Up at 0 yields
`UpdateUpperMark 0`. -/
theorem nav_saturation (presses : List Bool) (st : PagerState)
    (h : st.upper_mark ≤ USIZE_MAX) :
    (presses.foldl nav_step st).upper_mark ≤ USIZE_MAX ∧
    classify_input (TermEvent.Key KeyCode.Down KeyMods.plain)
        { st with upper_mark := USIZE_MAX }
      = some (InputEvent.UpdateUpperMark USIZE_MAX) ∧
    classify_input (TermEvent.Key KeyCode.Up KeyMods.plain)
        { st with upper_mark := 0 }
      = some (InputEvent.UpdateUpperMark 0) := by
  refine ⟨?_, ?_, rfl⟩
  · induction presses generalizing st with
    | nil => simpa using h
    | cons p ps ih =>
        simp only [List.foldl_cons]
        apply ih
        rw [nav_step_upper_mark]
        cases p <;> simp [usatAdd, usatSub]
        omega
  · show some (InputEvent.UpdateUpperMark (usatAdd USIZE_MAX 1))
      = some (InputEvent.UpdateUpperMark USIZE_MAX)
    have : usatAdd USIZE_MAX 1 = USIZE_MAX := by
      unfold usatAdd
      omega
    rw [this]

/-- Closed witness for `nav_saturation` with three presses from
`upper_mark = 12`. -/
theorem nav_saturation_witness :
    kb_state.upper_mark ≤ USIZE_MAX ∧
    (([true, true, false].foldl nav_step kb_state).upper_mark
        ≤ USIZE_MAX ∧
      classify_input (TermEvent.Key KeyCode.Down KeyMods.plain)
          { kb_state with upper_mark := USIZE_MAX }
        = some (InputEvent.UpdateUpperMark USIZE_MAX) ∧
      classify_input (TermEvent.Key KeyCode.Up KeyMods.plain)
          { kb_state with upper_mark := 0 }
        = some (InputEvent.UpdateUpperMark 0)) :=
  ⟨by decide, nav_saturation [true, true, false] kb_state (by decide)⟩

/-- C8 counterexample: the event `Char('a')` is unrecognized
(classified `None`), yet the input reader does change the pager state —
it clears a pending `prefix_num`. -/
theorem unrecognized_event_claim_cex :
    classify_input (TermEvent.Key (KeyCode.Char 'a') KeyMods.plain)
        { kb_state with prefix_num := ['3'] } = none ∧
    (event_reader_step { kb_state with prefix_num := ['3'] }
        (TermEvent.Key (KeyCode.Char 'a') KeyMods.plain)).1.prefix_num
      ≠ ({ kb_state with prefix_num := ['3'] } : PagerState).prefix_num := by
  decide

/-- C8 amended: on an event the classifier does not recognize, nothing
is forwarded and the reader leaves every state field unchanged except
`prefix_num`, which it clears. -/
theorem unrecognized_event_frame (st : PagerState) (raw : TermEvent)
    (h : classify_input raw st = none) :
    event_reader_step st raw = ({ st with prefix_num := [] }, none) := by
  simp [event_reader_step, h]

/-- Closed witness for `unrecognized_event_frame` at `Char('a')`. -/
theorem unrecognized_event_frame_witness :
    classify_input (TermEvent.Key (KeyCode.Char 'a') KeyMods.plain)
        kb_state = none ∧
    event_reader_step kb_state
        (TermEvent.Key (KeyCode.Char 'a') KeyMods.plain)
      = ({ kb_state with prefix_num := [] }, none) :=
  ⟨by decide,
    unrecognized_event_frame kb_state
      (TermEvent.Key (KeyCode.Char 'a') KeyMods.plain) (by decide)⟩

/-- C9: a disconnected channel on sending a forwarded `UserInput` stops
the reader loop with `Ok` (never surfaced as an error), while poll/read
failures end it with an error. -/
theorem reader_disconnect_is_clean (st : PagerState) (raw : TermEvent)
    (iev : InputEvent) (rest : List ReaderIter)
    (hcl : classify_input raw st = some iev)
    (hnum : isNumberEvent iev = false) :
    event_reader_loop st (ReaderIter.ev raw true :: rest)
      = ({ st with prefix_num := [] }, Except.ok ()) ∧
    event_reader_loop st (ReaderIter.pollErr :: rest)
      = (st, Except.error MinusError.HandleEvent) ∧
    event_reader_loop st (ReaderIter.readErr :: rest)
      = (st, Except.error MinusError.HandleEvent) := by
  refine ⟨?_, rfl, rfl⟩
  have hstep : event_reader_step st raw
      = ({ st with prefix_num := [] }, some iev) := by
    cases iev <;> simp_all [event_reader_step, isNumberEvent]
  simp [event_reader_loop, hstep]

/-- Closed witness for `reader_disconnect_is_clean` at the `q` (Exit)
binding. -/
theorem reader_disconnect_is_clean_witness :
    classify_input (TermEvent.Key (KeyCode.Char 'q') KeyMods.plain)
        kb_state = some InputEvent.Exit ∧
    isNumberEvent InputEvent.Exit = false ∧
    (event_reader_loop kb_state
        [ReaderIter.ev (TermEvent.Key (KeyCode.Char 'q') KeyMods.plain)
          true]
      = ({ kb_state with prefix_num := [] }, Except.ok ()) ∧
    event_reader_loop kb_state [ReaderIter.pollErr]
      = (kb_state, Except.error MinusError.HandleEvent) ∧
    event_reader_loop kb_state [ReaderIter.readErr]
      = (kb_state, Except.error MinusError.HandleEvent)) :=
  ⟨by decide, by decide,
    reader_disconnect_is_clean kb_state
      (TermEvent.Key (KeyCode.Char 'q') KeyMods.plain) InputEvent.Exit []
      (by decide) (by decide)⟩

/-- Whenever the clamping core of `write_lines` completes, the
resulting upper mark plus the number of written lines is at most the
total line count, and at most `rows` lines are written. -/
theorem write_lines_core_invariant (ls : List String)
    (ends_nl rows u um : Nat) (disp : List String)
    (h : write_lines_core ls ends_nl rows u = some (um, disp)) :
    um + disp.length ≤ ls.length ∧ disp.length ≤ rows := by
  unfold write_lines_core at h
  split at h
  · exact Option.noConfusion h
  split at h
  · exact Option.noConfusion h
  simp only [] at h
  split at h
  · rw [Option.some.injEq, Prod.mk.injEq] at h
    obtain ⟨hum, hdisp⟩ := h
    subst hum
    subst hdisp
    simp only [List.length_take, List.length_drop]
    split <;> omega
  · split at h
    · exact Option.noConfusion h
    · rw [Option.some.injEq, Prod.mk.injEq] at h
      obtain ⟨hum, hdisp⟩ := h
      subst hum
      subst hdisp
      simp only [List.length_take, List.length_drop]
      omega

/-- C3 counterexample: at `upper_mark = usize::MAX - 1` (the value the
`G` binding installs) with `rows = 5`, `write_lines` overflows in the
lower-mark computation instead of clamping, so it establishes no state
at all — the claimed "for every upper_mark, rows and lines input" is
false. -/
theorem write_lines_invariant_claim_cex :
    write_lines "x\ny\nz\nw" 5 (USIZE_MAX - 1) = none := by
  rfl

/-- C3 amended: after every completed `write_lines` mutation the
invariant holds — whenever `write_lines` returns (no arithmetic
overflow), the clamped `upper_mark` plus the number of displayed lines
is at most the total line count, and at most `rows` lines are
displayed. -/
theorem write_lines_invariant (lines : String) (rows u um : Nat)
    (disp : List String)
    (h : write_lines lines rows u = some (um, disp)) :
    um + disp.length ≤ (rustLines lines).length ∧
    disp.length ≤ rows := by
  unfold write_lines at h
  exact write_lines_core_invariant _ _ _ _ _ _ h

/-- Closed witness for `write_lines_invariant` on three lines with two
rows, scrolled one line down. -/
theorem write_lines_invariant_witness :
    write_lines "a\nb\nc" 2 1 = some (1, ["b", "c"]) ∧
    (1 + (["b", "c"] : List String).length ≤ (rustLines "a\nb\nc").length ∧
      (["b", "c"] : List String).length ≤ 2) :=
  ⟨by decide, write_lines_invariant "a\nb\nc" 2 1 1 ["b", "c"] (by decide)⟩

/-- C10: `write_lines` is not total — at `upper_mark = usize::MAX - 1`
(exactly what the `G` key binding produces) and `rows = 5` the
computation `*upper_mark + rows` overflows `usize`, so the function
panics in debug builds (and in release builds the wrapped lower mark
defeats the clamping and the take length underflows) instead of
clamping to the last screenful as its documentation intends. -/
theorem write_lines_overflow_at_G :
    write_lines "a\nb\nc\nd" 5 (USIZE_MAX - 1) = none := by
  rfl

end Minus
